import Mathlib

/-!
Verification of the traffic-simulation core of the repository
(src/js/TrafficLight.js, src/js/CityRoadNetwork.js, src/js/NPCVehicle.js).

Conventions of the shallow embedding:
* JS numbers are modelled as rationals.  Every numeric constant in the
  relevant code paths is an integer or a small fraction, so rational
  arithmetic is exact where the claims look.
* JS `x % y` for `x ≥ 0, y > 0` is `jsMod`, and `Math.floor` / `Math.ceil`
  are the integer floor and ceiling on rationals.
* `Math.sqrt` is modelled by `Rat.sqrt`; every claim below only evaluates
  it on perfect squares, where it agrees exactly (Rat.sqrt_eq).
* Mutable objects become state records; a JS method that mutates `this`
  becomes a function returning the updated record.
-/

namespace Sim

/-! ### TrafficLight.js — the signal state machine -/

/-- A light aspect, the strings red / yellow / green of the source. -/
inductive Aspect
  | red
  | yellow
  | green
deriving DecidableEq, Repr

/-- One entry of the `this.phases` array (TrafficLight.js 14-21). -/
structure Phase where
  name : String
  duration : ℚ
  ns : Aspect
  ew : Aspect
deriving DecidableEq, Repr

/-- The fixed six-phase cycle (TrafficLight.js 14-21). -/
def phases : List Phase :=
  [ ⟨"NS_GREEN", 10, Aspect.green, Aspect.red⟩,
    ⟨"NS_YELLOW", 2, Aspect.yellow, Aspect.red⟩,
    ⟨"ALL_RED_1", 1, Aspect.red, Aspect.red⟩,
    ⟨"EW_GREEN", 10, Aspect.red, Aspect.green⟩,
    ⟨"EW_YELLOW", 2, Aspect.red, Aspect.yellow⟩,
    ⟨"ALL_RED_2", 1, Aspect.red, Aspect.red⟩ ]

/-- Array access `this.phases[i]`.  In the source the index is always in
range; the default value is only there to make the function total. -/
def phaseAt (i : ℕ) : Phase :=
  phases.getD i ⟨"NS_GREEN", 10, Aspect.green, Aspect.red⟩

/-- The mutable signal state of one TrafficLight (TrafficLight.js 23-25). -/
structure TLState where
  currentPhaseIndex : ℕ
  phaseTimer : ℚ
  phaseOffset : ℚ
deriving DecidableEq, Repr

/-- State right after the constructor ran (TrafficLight.js 23-25). -/
def TLState.init : TLState := ⟨0, 0, 0⟩

/-- `getTotalCycleDuration` (TrafficLight.js 251-253):
`this.phases.reduce((sum, p) => sum + p.duration, 0)`. -/
def getTotalCycleDuration : ℚ :=
  phases.foldl (fun sum p => sum + p.duration) 0

/-- `update(delta)` (TrafficLight.js 183-192).  The visual side effect
`updateLightColors` has no bearing on the signal state and is dropped. -/
def TLState.update (delta : ℚ) (s : TLState) : TLState :=
  let timer := s.phaseTimer + delta
  let currentPhase := phaseAt s.currentPhaseIndex
  if timer ≥ currentPhase.duration then
    { s with phaseTimer := 0,
             currentPhaseIndex := (s.currentPhaseIndex + 1) % phases.length }
  else
    { s with phaseTimer := timer }

/-- JS `a % b` for `a ≥ 0, b > 0` (used at TrafficLight.js 235 with a
nonnegative offset and the positive cycle length). -/
def jsMod (a b : ℚ) : ℚ := a - b * ⌊a / b⌋

/-- The phase-finding loop of `setPhaseOffset` (TrafficLight.js 238-246):
walks the phase list subtracting durations until the remainder fits,
returning the break values, or `none` when the loop never breaks. -/
def findPhaseLoop : List Phase → ℚ → ℕ → Option (ℕ × ℚ)
  | [], _, _ => none
  | p :: rest, elapsed, i =>
    if elapsed < p.duration then some (i, elapsed)
    else findPhaseLoop rest (elapsed - p.duration) (i + 1)

/-- `setPhaseOffset(offset)` (TrafficLight.js 233-249).  When the loop
never breaks, `currentPhaseIndex` is left unchanged and `phaseTimer`
keeps the value assigned on line 235. -/
def TLState.setPhaseOffset (offset : ℚ) (s : TLState) : TLState :=
  let e := jsMod offset getTotalCycleDuration
  match findPhaseLoop phases e 0 with
  | some (i, t) => ⟨i, t, offset⟩
  | none => ⟨s.currentPhaseIndex, e, offset⟩

/-- The four approach directions used by `getState` and the traffic
manager. -/
inductive Approach
  | north
  | south
  | east
  | west
deriving DecidableEq, Repr

/-- `getState(direction)` (TrafficLight.js 199-207). -/
def TLState.getState (s : TLState) (direction : Approach) : Aspect :=
  let phase := phaseAt s.currentPhaseIndex
  match direction with
  | Approach.north => phase.ns
  | Approach.south => phase.ns
  | Approach.east => phase.ew
  | Approach.west => phase.ew

/-- Reachable signal states: constructed state, then any interleaving of
`update` with nonnegative deltas and `setPhaseOffset` with nonnegative
offsets. -/
inductive Reachable : TLState → Prop
  | init : Reachable TLState.init
  | update {s : TLState} (dt : ℚ) (hdt : 0 ≤ dt) (hs : Reachable s) :
      Reachable (s.update dt)
  | setOffset {s : TLState} (o : ℚ) (ho : 0 ≤ o) (hs : Reachable s) :
      Reachable (s.setPhaseOffset o)

/-- No phase of the fixed table shows green to both axes, regardless of
the index used to read the table. -/
lemma phaseAt_not_both_green (i : ℕ) :
    ¬((phaseAt i).ns = Aspect.green ∧ (phaseAt i).ew = Aspect.green) := by
  match i with
  | 0 => decide
  | 1 => decide
  | 2 => decide
  | 3 => decide
  | 4 => decide
  | 5 => decide
  | (n + 6) =>
    simp [phaseAt, phases, List.getD]

/-- The phase index of the result of `findPhaseLoop l e i` is below
`i + l.length`. -/
lemma findPhaseLoop_index_lt (l : List Phase) (e : ℚ) (i j : ℕ) (t : ℚ)
    (h : findPhaseLoop l e i = some (j, t)) : j < i + l.length := by
  induction l generalizing e i with
  | nil => simp [findPhaseLoop] at h
  | cons p rest ih =>
    simp only [findPhaseLoop] at h
    split at h
    · simp only [Option.some.injEq, Prod.mk.injEq] at h
      obtain ⟨h1, h2⟩ := h
      simp only [List.length_cons]
      omega
    · have := ih (e - p.duration) (i + 1) h
      simp only [List.length_cons]
      omega

/-- Every reachable state keeps its phase index inside the table. -/
lemma reachable_index_lt {s : TLState} (h : Reachable s) :
    s.currentPhaseIndex < 6 := by
  induction h with
  | init => decide
  | update dt hdt hs ih =>
    unfold TLState.update
    dsimp only
    split
    · exact Nat.mod_lt _ (by decide)
    · exact ih
  | setOffset o ho hs ih =>
    rcases hloop : findPhaseLoop phases (jsMod o getTotalCycleDuration) 0 with _ | ⟨j, t⟩
    · simp [TLState.setPhaseOffset, hloop, ih]
    · have hj := findPhaseLoop_index_lt phases (jsMod o getTotalCycleDuration) 0 j t hloop
      simp only [TLState.setPhaseOffset, hloop]
      simpa [phases] using hj

/-- C1: in every reachable state of a signal controller the NS and EW
aspects of the current phase are never both green, and the six phase
durations always sum to the constant cycle length 26 = 10+2+1+10+2+1. -/
theorem signal_reachable_invariant (s : TLState) (h : Reachable s) :
    s.currentPhaseIndex < 6 ∧
    ¬((phaseAt s.currentPhaseIndex).ns = Aspect.green ∧
      (phaseAt s.currentPhaseIndex).ew = Aspect.green) ∧
    getTotalCycleDuration = 26 ∧
    phases.map Phase.duration = [10, 2, 1, 10, 2, 1] := by
  refine ⟨reachable_index_lt h, phaseAt_not_both_green _, ?_, by decide⟩
  show phases.foldl (fun sum p => sum + p.duration) 0 = 26
  simp [phases]
  norm_num

/-- Witness for C1: the invariant discharged at the constructed state. -/
theorem signal_reachable_invariant_witness :
    TLState.init.currentPhaseIndex < 6 ∧
    ¬((phaseAt TLState.init.currentPhaseIndex).ns = Aspect.green ∧
      (phaseAt TLState.init.currentPhaseIndex).ew = Aspect.green) ∧
    getTotalCycleDuration = 26 ∧
    phases.map Phase.duration = [10, 2, 1, 10, 2, 1] :=
  signal_reachable_invariant TLState.init Reachable.init

/-- The continuous-time position in the 26-second cycle, written from the
words of the spec for the replay side of the offset-idempotence claim:
start at phase index 0 with time-in-phase 0 and let `e` seconds of
simulated time elapse, changing phase exactly when a phase duration is
exhausted.  (Refinement spec, deliberately independent of the source.) -/
def replayFromZero (e : ℚ) : ℕ × ℚ :=
  if e < 10 then (0, e)
  else if e < 12 then (1, e - 10)
  else if e < 13 then (2, e - 12)
  else if e < 23 then (3, e - 13)
  else if e < 25 then (4, e - 23)
  else (5, e - 25)

/-- `jsMod a b` lies in `[0, b)` for `a ≥ 0, b > 0`. -/
lemma jsMod_bounds (a b : ℚ) (hb : 0 < b) : 0 ≤ jsMod a b ∧ jsMod a b < b := by
  unfold jsMod
  constructor
  · have h1 : (⌊a / b⌋ : ℚ) ≤ a / b := Int.floor_le _
    have h2 : b * (⌊a / b⌋ : ℚ) ≤ b * (a / b) := by
      exact mul_le_mul_of_nonneg_left h1 (le_of_lt hb)
    have h3 : b * (a / b) = a := by field_simp
    linarith
  · have h1 : a / b < ⌊a / b⌋ + 1 := Int.lt_floor_add_one _
    have h2 : b * (a / b) < b * ((⌊a / b⌋ : ℚ) + 1) := by
      exact mul_lt_mul_of_pos_left h1 hb
    have h3 : b * (a / b) = a := by field_simp
    nlinarith

/-- C3: `setPhaseOffset(o)` with `o ≥ 0` lands on exactly the pair
`(currentPhaseIndex, timeInPhase)` obtained by replaying the cycle from
phase 0, time 0, for `o mod 26` seconds of simulated time.  The result
does not depend on the prior controller state. -/
theorem setPhaseOffset_replays (s : TLState) (o : ℚ) (_ho : 0 ≤ o) :
    ((s.setPhaseOffset o).currentPhaseIndex, (s.setPhaseOffset o).phaseTimer)
      = replayFromZero (jsMod o getTotalCycleDuration) := by
  have h26 : getTotalCycleDuration = 26 := by
    show phases.foldl (fun sum p => sum + p.duration) 0 = 26
    simp [phases]
    norm_num
  obtain ⟨hlo, hhi⟩ := jsMod_bounds o getTotalCycleDuration (by rw [h26]; norm_num)
  rw [h26] at hhi
  set e := jsMod o getTotalCycleDuration with he
  unfold TLState.setPhaseOffset replayFromZero
  rw [← he]
  simp only [phases, findPhaseLoop]
  split_ifs with h1 h2 h3 h4 h5 <;>
    simp_all <;> norm_num <;> linarith

/-- Witness for C3: the replay equation discharged at offset 30 on the
constructed state; 30 mod 26 = 4 lands in phase 0 with 4 s elapsed. -/
theorem setPhaseOffset_replays_witness :
    0 ≤ (30 : ℚ) ∧
    ((TLState.init.setPhaseOffset 30).currentPhaseIndex,
     (TLState.init.setPhaseOffset 30).phaseTimer)
      = replayFromZero (jsMod 30 getTotalCycleDuration) :=
  ⟨by norm_num, setPhaseOffset_replays TLState.init 30 (by norm_num)⟩

/-- C9: a single `update(dt)` with `dt ≥ 0` either stays in the current
phase accumulating the timer, or advances exactly one phase (mod 6) and
resets the timer to exactly 0, discarding the excess over the finished
phase duration; consequently one large delta is not equivalent to the
same total time in smaller steps, e.g. update(20) lands in phase 1 while
update(10) twice lands in phase 2. -/
theorem update_single_step :
    (∀ (s : TLState) (dt : ℚ), 0 ≤ dt →
      ((s.update dt).currentPhaseIndex = s.currentPhaseIndex ∧
        (s.update dt).phaseTimer = s.phaseTimer + dt ∧
        s.phaseTimer + dt < (phaseAt s.currentPhaseIndex).duration) ∨
      ((s.update dt).currentPhaseIndex = (s.currentPhaseIndex + 1) % 6 ∧
        (s.update dt).phaseTimer = 0 ∧
        (phaseAt s.currentPhaseIndex).duration ≤ s.phaseTimer + dt)) ∧
    (TLState.init.update 20).currentPhaseIndex = 1 ∧
    ((TLState.init.update 10).update 10).currentPhaseIndex = 2 := by
  refine ⟨?_, ?_, ?_⟩
  · intro s dt hdt
    unfold TLState.update
    dsimp only
    split
    next hge =>
      right
      exact ⟨rfl, rfl, hge⟩
    next hlt =>
      left
      exact ⟨rfl, rfl, lt_of_not_le hlt⟩
  · show (TLState.init.update 20).currentPhaseIndex = 1
    unfold TLState.update TLState.init
    norm_num [phaseAt, phases]
  · unfold TLState.update TLState.init
    norm_num [phaseAt, phases]

/-- Witness for C9: the dichotomy discharged at the constructed state
with delta 3, which stays inside phase 0. -/
theorem update_single_step_witness :
    0 ≤ (3 : ℚ) ∧
    (((TLState.init.update 3).currentPhaseIndex = TLState.init.currentPhaseIndex ∧
      (TLState.init.update 3).phaseTimer = TLState.init.phaseTimer + 3 ∧
      TLState.init.phaseTimer + 3 < (phaseAt TLState.init.currentPhaseIndex).duration) ∨
     ((TLState.init.update 3).currentPhaseIndex = (TLState.init.currentPhaseIndex + 1) % 6 ∧
      (TLState.init.update 3).phaseTimer = 0 ∧
      (phaseAt TLState.init.currentPhaseIndex).duration ≤ TLState.init.phaseTimer + 3)) :=
  ⟨by norm_num, update_single_step.1 TLState.init 3 (by norm_num)⟩

/-! ### CityRoadNetwork.js — TrafficManager stop queries -/

/-- A planar point, the object literals `{x, z}` of the source. -/
structure Vec2 where
  x : ℚ
  z : ℚ
deriving DecidableEq, Repr

/-- `Math.sqrt`, modelled by `Rat.sqrt`.  The two agree exactly whenever
the argument is the square of a rational, which covers every evaluation
performed by the theorems in this file. -/
def jsSqrt (q : ℚ) : ℚ := Rat.sqrt q

/-- A traffic light as the manager sees it: intersection id, intersection
position, and the signal state machine (TrafficManager constructor and
`createTrafficLights`, CityRoadNetwork.js 751-761). -/
structure ManagedLight where
  id : String
  pos : Vec2
  signal : TLState
deriving DecidableEq, Repr

/-- `getApproachDirection(vehiclePos, intersectionPos, heading)`
(CityRoadNetwork.js 896-906).  The heading parameter is unused in the
source body and is dropped here. -/
def getApproachDirection (vehiclePos intersectionPos : Vec2) : Approach :=
  let dx := intersectionPos.x - vehiclePos.x
  let dz := intersectionPos.z - vehiclePos.z
  if |dx| > |dz| then
    if dx > 0 then Approach.west else Approach.east
  else
    if dz > 0 then Approach.south else Approach.north

/-- `getStopPosition(intersectionPos, approachDirection)`
(CityRoadNetwork.js 911-926).  `stopDistance = 8`. -/
def getStopPosition (intersectionPos : Vec2) (approachDirection : Approach) : Vec2 :=
  let stopDistance : ℚ := 8
  match approachDirection with
  | Approach.north => ⟨intersectionPos.x, intersectionPos.z + stopDistance⟩
  | Approach.south => ⟨intersectionPos.x, intersectionPos.z - stopDistance⟩
  | Approach.east => ⟨intersectionPos.x - stopDistance, intersectionPos.z⟩
  | Approach.west => ⟨intersectionPos.x + stopDistance, intersectionPos.z⟩

/-- The record built for a qualifying stop candidate in `shouldStop`
(CityRoadNetwork.js 875-881); `shouldStop: true` is implicit in being
`some`, and the no-stop return value on line 890 is `none`. -/
structure StopCandidate where
  distance : ℚ
  intersection : String
  state : Aspect
  stopPosition : Vec2
deriving DecidableEq, Repr

/-- The body of the `forEach` over managed lights in `shouldStop`
(CityRoadNetwork.js 846-884), threading the nearest qualifying candidate
(`none` plays the role of `nearestDistance = Infinity`).  The vehicle
heading enters the source only as the unit vector
`(sin heading, cos heading)`, which the embedding takes directly as
`forward`.  The `lookAhead` point computed on lines 838-841 is never
used by the source and is dropped. -/
def shouldStopStep (position forward : Vec2) (checkDistance : ℚ)
    (best : Option StopCandidate) (light : ManagedLight) : Option StopCandidate :=
  let lightPos := light.pos
  let toLightX := lightPos.x - position.x
  let toLightZ := lightPos.z - position.z
  let distance := jsSqrt (toLightX * toLightX + toLightZ * toLightZ)
  if distance > checkDistance ∨ distance < 2 then best
  else
    let dot := toLightX * forward.x + toLightZ * forward.z
    if dot < 0 then best
    else
      let direction := getApproachDirection position lightPos
      let lightState := light.signal.getState direction
      if lightState = Aspect.red ∨ lightState = Aspect.yellow then
        match best with
        | none =>
          some ⟨distance, light.id, lightState, getStopPosition lightPos direction⟩
        | some b =>
          if distance < b.distance then
            some ⟨distance, light.id, lightState, getStopPosition lightPos direction⟩
          else best
      else best

/-- `shouldStop(position, heading, checkDistance)` (CityRoadNetwork.js
836-891) over the list of managed lights in map order. -/
def shouldStop (lights : List ManagedLight) (position forward : Vec2)
    (checkDistance : ℚ) : Option StopCandidate :=
  lights.foldl (shouldStopStep position forward checkDistance) none

/-- `Math.sqrt 64 = 8`, exactly. -/
lemma jsSqrt_64 : jsSqrt 64 = 8 := by
  have h : (64 : ℚ) = 8 * 8 := by norm_num
  rw [jsSqrt, h, Rat.sqrt_eq]
  norm_num

/-! ### CityRoadNetwork.js — intersections and the green wave -/

/-- An intersection record (CityRoadNetwork.js 167-233), restricted to
the fields the embedded operations read: id, position and the traffic
light flag.  The `type`, `connectedRoads` and `size` fields are carried
by the source but never read on the verified paths. -/
structure Inter where
  id : String
  position : Vec2
  hasTrafficLight : Bool
deriving DecidableEq, Repr

/-- The intersections created by `createIntersections`
(CityRoadNetwork.js 167-233), in creation order: the 3x3 main grid
(outer loop over x, inner over z, positions from `[-80, 0, 80]`), the
2x2 unsignaled side grid (positions from `[-40, 40]`), then for each
main position the four main-side crossings. -/
def cityIntersections : List Inter :=
  [ ⟨"intersection-0-0", ⟨-80, -80⟩, true⟩,
    ⟨"intersection-0-1", ⟨-80, 0⟩, true⟩,
    ⟨"intersection-0-2", ⟨-80, 80⟩, true⟩,
    ⟨"intersection-1-0", ⟨0, -80⟩, true⟩,
    ⟨"intersection-1-1", ⟨0, 0⟩, true⟩,
    ⟨"intersection-1-2", ⟨0, 80⟩, true⟩,
    ⟨"intersection-2-0", ⟨80, -80⟩, true⟩,
    ⟨"intersection-2-1", ⟨80, 0⟩, true⟩,
    ⟨"intersection-2-2", ⟨80, 80⟩, true⟩,
    ⟨"side-intersection-0-0", ⟨-40, -40⟩, false⟩,
    ⟨"side-intersection-1-0", ⟨40, -40⟩, false⟩,
    ⟨"side-intersection-0-1", ⟨-40, 40⟩, false⟩,
    ⟨"side-intersection-1-1", ⟨40, 40⟩, false⟩,
    ⟨"cross-v0-sh0", ⟨-80, -40⟩, true⟩,
    ⟨"cross-v0-sh1", ⟨-80, 40⟩, true⟩,
    ⟨"cross-h0-sv0", ⟨-40, -80⟩, true⟩,
    ⟨"cross-h0-sv1", ⟨40, -80⟩, true⟩,
    ⟨"cross-v1-sh0", ⟨0, -40⟩, true⟩,
    ⟨"cross-v1-sh1", ⟨0, 40⟩, true⟩,
    ⟨"cross-h1-sv0", ⟨-40, 0⟩, true⟩,
    ⟨"cross-h1-sv1", ⟨40, 0⟩, true⟩,
    ⟨"cross-v2-sh0", ⟨80, -40⟩, true⟩,
    ⟨"cross-v2-sh1", ⟨80, 40⟩, true⟩,
    ⟨"cross-h2-sv0", ⟨-40, 80⟩, true⟩,
    ⟨"cross-h2-sv1", ⟨40, 80⟩, true⟩ ]

/-- The managed traffic lights in map insertion order:
`getTrafficLightIntersections` filters on the flag (CityRoadNetwork.js
328-330) and `createTrafficLights` inserts in that order
(CityRoadNetwork.js 751-757).  Only id and position matter to the green
wave. -/
def signaledLights : List (String × Vec2) :=
  (cityIntersections.filter (fun i => i.hasTrafficLight)).map
    (fun i => (i.id, i.position))

/-- JS `String.prototype.includes`: substring containment. -/
def containsSub (sub s : String) : Bool := decide (sub.data <:+: s.data)

/-- `this.greenWaveSpeed` (CityRoadNetwork.js 741). -/
def greenWaveSpeed : ℚ := 50

/-- `this.baseCycleTime` (CityRoadNetwork.js 742). -/
def baseCycleTime : ℚ := 26

/-- The `forEach` body shared by both green wave passes for every
intersection after the first (CityRoadNetwork.js 782-791 and 807-815):
distance to the previous light along the axis, travel time at the wave
speed, cumulative offset, assignment modulo the cycle. -/
def waveLoop (coord : Vec2 → ℚ) :
    (String × Vec2) → ℚ → List (String × Vec2) → List (String × ℚ)
  | _, _, [] => []
  | prev, cumulativeOffset, light :: rest =>
    let distance := |coord light.2 - coord prev.2|
    let travelTime := distance / greenWaveSpeed
    let c := cumulativeOffset + travelTime
    (light.1, jsMod c baseCycleTime) :: waveLoop coord light c rest

/-- `applyGreenWave` (CityRoadNetwork.js 767-817) as the ordered list of
`setPhaseOffset` calls it performs, each as (intersection id, offset).
The horizontal pass takes the lights whose id contains both
`intersection-` and `-1`, sorted by x; its first light is assigned
literally 0.  The vertical pass takes the lights whose id contains
`intersection-1-`, sorted by z; its first light is assigned literally
13 = cycle/2.  JS `Array.prototype.sort` is stable; the stable insertion
sort produces the same ordering. -/
def applyGreenWaveAssignments (tlights : List (String × Vec2)) :
    List (String × ℚ) :=
  let mainHIntersections :=
    List.insertionSort (fun a b => a.2.x ≤ b.2.x)
      (tlights.filter (fun l =>
        containsSub "intersection-" l.1 && containsSub "-1" l.1))
  let hAssign :=
    match mainHIntersections with
    | [] => []
    | first :: rest => (first.1, (0 : ℚ)) :: waveLoop (fun p => p.x) first 0 rest
  let mainVIntersections :=
    List.insertionSort (fun a b => a.2.z ≤ b.2.z)
      (tlights.filter (fun l => containsSub "intersection-1-" l.1))
  let vAssign :=
    match mainVIntersections with
    | [] => []
    | first :: rest =>
      (first.1, baseCycleTime / 2) ::
        waveLoop (fun p => p.z) first (baseCycleTime / 2) rest
  hAssign ++ vAssign

/-- The phase offset a light ends up with after `applyGreenWave` ran:
the last `setPhaseOffset` call for its id wins (each call overwrites the
whole controller state), `none` when the light is never assigned. -/
def finalOffset (tlights : List (String × Vec2)) (id : String) : Option ℚ :=
  ((applyGreenWaveAssignments tlights).reverse.find?
    (fun a => a.1 == id)).map Prod.snd

/-- Full evaluation of the green wave on the constructed network: the
horizontal pass picks the five lights whose id contains `-1` (the middle
row AND the middle column, a consequence of substring matching), the
vertical pass picks the middle column and overwrites it. -/
lemma greenWave_assignments_eval :
    applyGreenWaveAssignments signaledLights =
      [ ("intersection-0-1", 0), ("intersection-1-0", 8/5),
        ("intersection-1-1", 8/5), ("intersection-1-2", 8/5),
        ("intersection-2-1", 16/5),
        ("intersection-1-0", 13), ("intersection-1-1", 73/5),
        ("intersection-1-2", 81/5) ] := by
  have hH : List.insertionSort (fun a b => a.2.x ≤ b.2.x)
      (signaledLights.filter (fun l =>
        containsSub "intersection-" l.1 && containsSub "-1" l.1)) =
      [ ("intersection-0-1", ⟨-80, 0⟩), ("intersection-1-0", ⟨0, -80⟩),
        ("intersection-1-1", ⟨0, 0⟩), ("intersection-1-2", ⟨0, 80⟩),
        ("intersection-2-1", ⟨80, 0⟩) ] := by decide
  have hV : List.insertionSort (fun a b => a.2.z ≤ b.2.z)
      (signaledLights.filter (fun l => containsSub "intersection-1-" l.1)) =
      [ ("intersection-1-0", ⟨0, -80⟩), ("intersection-1-1", ⟨0, 0⟩),
        ("intersection-1-2", ⟨0, 80⟩) ] := by decide
  simp only [applyGreenWaveAssignments]
  rw [hH, hV]
  norm_num [waveLoop, jsMod, baseCycleTime, greenWaveSpeed]

/-- C4, counterexample.  The three signaled intersections of the middle
horizontal main road, at (-80, 0), (0, 0) and (80, 0), are collinear and
evenly spaced with increasing x; the claim requires their computed
cumulative offsets to be strictly increasing with increment
80 / 50 = 1.6.  The offsets the green wave actually leaves on them are
0, 14.6 and 3.2: the middle one was overwritten by the vertical pass
(its id `intersection-1-1` matches both passes), so the sequence is not
strictly increasing and the increments are not 1.6. -/
theorem greenWave_middle_row_refutes_claim :
    finalOffset signaledLights "intersection-0-1" = some 0 ∧
    finalOffset signaledLights "intersection-1-1" = some (73/5) ∧
    finalOffset signaledLights "intersection-2-1" = some (16/5) ∧
    ¬((73 : ℚ)/5 < 16/5) ∧
    ¬((73 : ℚ)/5 - 0 = 80/50) := by
  refine ⟨?_, ?_, ?_, by norm_num, by norm_num⟩ <;>
    · rw [finalOffset, greenWave_assignments_eval]
      rfl

/-- C4, amended.  The horizontal pass selects the ids containing `-1`
(middle row and middle column together), sorts by x, assigns 0 to the
first and previous-cumulative-plus-distance/waveSpeed mod 26 to each
next; the vertical pass selects the middle column, sorts by z, assigns
13 and then cumulative increments, overwriting the column.  Hence the
strictly-increasing property holds for the final offsets of the middle
column — 13, 14.6, 16.2 with increment exactly 80/50 — while the middle
row keeps 0, 14.6, 3.2. -/
theorem greenWave_axis_offsets :
    applyGreenWaveAssignments signaledLights =
      [ ("intersection-0-1", 0), ("intersection-1-0", 8/5),
        ("intersection-1-1", 8/5), ("intersection-1-2", 8/5),
        ("intersection-2-1", 16/5),
        ("intersection-1-0", 13), ("intersection-1-1", 73/5),
        ("intersection-1-2", 81/5) ] ∧
    finalOffset signaledLights "intersection-1-0" = some 13 ∧
    finalOffset signaledLights "intersection-1-1" = some (73/5) ∧
    finalOffset signaledLights "intersection-1-2" = some (81/5) ∧
    (13 : ℚ) < 73/5 ∧ (73 : ℚ)/5 < 81/5 ∧
    (73 : ℚ)/5 - 13 = 80/50 ∧ (81 : ℚ)/5 - 73/5 = 80/50 := by
  refine ⟨greenWave_assignments_eval, ?_, ?_, ?_, by norm_num, by norm_num,
    by norm_num, by norm_num⟩ <;>
    · rw [finalOffset, greenWave_assignments_eval]
      rfl

/-! ### CityRoadNetwork.js — segments and waypoint generation -/

/-- A road segment (`createMainRoads`, CityRoadNetwork.js 38-70),
restricted to the fields the embedded operations read.  The source field
`end` is a Lean keyword and is rendered `endPos`. -/
structure Segment where
  id : String
  start : Vec2
  endPos : Vec2
  width : ℚ
  lanes : ℕ
  speedLimit : ℚ
deriving DecidableEq, Repr

/-- `this.laneWidth = 2.5` (CityRoadNetwork.js 17). -/
def laneWidth : ℚ := 5/2

/-- A navigation waypoint (`generateWaypoints`, CityRoadNetwork.js
287-296). -/
structure Waypoint where
  id : String
  position : Vec2
  lane : ℕ
  segmentId : String
  direction : ℤ
deriving DecidableEq, Repr

/-- The straight-road branch of `generateWaypoints` (CityRoadNetwork.js
270-301): `numPoints = max(2, ceil(length / 8))`, loop `i` from 0 to
`numPoints` inclusive, and inside it one waypoint per lane, laterally
offset by `(lane - (lanes-1)/2) * laneWidth` along the perpendicular. -/
def generateStraightWaypoints (segment : Segment) : List Waypoint :=
  let waypointSpacing : ℚ := 8
  let dx := segment.endPos.x - segment.start.x
  let dz := segment.endPos.z - segment.start.z
  let length := jsSqrt (dx * dx + dz * dz)
  let numPoints : ℕ := (max 2 ⌈length / waypointSpacing⌉).toNat
  let perpX := -dz / length
  let perpZ := dx / length
  (List.range (numPoints + 1)).flatMap (fun (i : ℕ) =>
    let t : ℚ := (i : ℚ) / (numPoints : ℚ)
    (List.range segment.lanes).map (fun (lane : ℕ) =>
      let laneOffset := ((lane : ℚ) - ((segment.lanes : ℚ) - 1) / 2) * laneWidth
      { id := segment.id ++ "-wp" ++ toString i ++ "-lane" ++ toString lane
        position := ⟨segment.start.x + t * dx + perpX * laneOffset,
                     segment.start.z + t * dz + perpZ * laneOffset⟩
        lane := lane
        segmentId := segment.id
        direction := if (lane : ℚ) < (segment.lanes : ℚ) / 2 then 1 else -1 }))

/-- The middle horizontal main road `main-h1` (CityRoadNetwork.js 40-53,
z = 0): from (-120, 0) to (120, 0), width 10, 4 lanes, speed limit
50. -/
def mainH1 : Segment := ⟨"main-h1", ⟨-120, 0⟩, ⟨120, 0⟩, 10, 4, 50⟩

/-- `Math.sqrt 57600 = 240`, exactly. -/
lemma jsSqrt_57600 : jsSqrt 57600 = 240 := by
  have h : (57600 : ℚ) = 240 * 240 := by norm_num
  rw [jsSqrt, h, Rat.sqrt_eq]
  norm_num

/-- The length of a `flatMap` is the sum of the block lengths. -/
lemma length_flatMap_count {α β : Type} (l : List α) (f : α → List β) :
    (l.flatMap f).length = (l.map (fun a => (f a).length)).sum := by
  induction l with
  | nil => simp
  | cons a t ih => simp [ih]

/-- Summing a constant over a list. -/
lemma sum_map_const_nat {α : Type} (l : List α) (c : ℕ) :
    (l.map (fun _ => c)).sum = l.length * c := by
  induction l with
  | nil => simp
  | cons a t ih => simp [ih, Nat.succ_mul, Nat.add_comm]

/-- Filtering distributes over `flatMap`, counting per block. -/
lemma length_filter_flatMap {α β : Type} (l : List α) (f : α → List β)
    (p : β → Bool) :
    ((l.flatMap f).filter p).length
      = (l.map (fun a => ((f a).filter p).length)).sum := by
  induction l with
  | nil => simp
  | cons a t ih => simp [List.filter_append, ih]

/-- C7: the 4-lane straight segment from (-120, 0) to (120, 0) with
8-unit spacing yields ceil(240/8) + 1 = 31 longitudinal positions, one
waypoint per lane at each, so 31 waypoints in each of the 4 lanes and
124 waypoints in total. -/
theorem mainH1_waypoint_count :
    (⌈(240 : ℚ) / 8⌉ + 1 = 31) ∧
    (generateStraightWaypoints mainH1).length = 124 ∧
    ((generateStraightWaypoints mainH1).filter (fun w => w.lane == 0)).length = 31 ∧
    ((generateStraightWaypoints mainH1).filter (fun w => w.lane == 1)).length = 31 ∧
    ((generateStraightWaypoints mainH1).filter (fun w => w.lane == 2)).length = 31 ∧
    ((generateStraightWaypoints mainH1).filter (fun w => w.lane == 3)).length = 31 := by
  refine ⟨by norm_num, ?_, ?_, ?_, ?_, ?_⟩ <;>
    · norm_num [generateStraightWaypoints, mainH1, jsSqrt_57600,
        length_flatMap_count, length_filter_flatMap, List.filter_map,
        sum_map_const_nat, List.length_range, List.range_succ,
        List.filter_cons]
      all_goals decide

/-! ### CityRoadNetwork.js — waypoint graph queries -/

/-- A lane record (`generateWaypoints`, CityRoadNetwork.js 304-313). -/
structure LaneRec where
  id : String
  segmentId : String
  laneIndex : ℕ
  direction : ℤ
  speedLimit : ℚ
  waypoints : List String
deriving DecidableEq, Repr

/-- The parts of a CityRoadNetwork the graph queries read: segment list,
intersection list, the keyed waypoint map (as an association list in
insertion order) and the lane list. -/
structure Network where
  segments : List Segment
  intersections : List Inter
  waypoints : List (String × Waypoint)
  lanes : List LaneRec
deriving DecidableEq, Repr

/-- `this.waypoints.get(id)` (CityRoadNetwork.js 351-353). -/
def Network.getWaypoint (net : Network) (id : String) : Option Waypoint :=
  (net.waypoints.find? (fun p => p.1 == id)).map Prod.snd

/-- Squared planar distance. -/
def dist2 (a b : Vec2) : ℚ :=
  (a.x - b.x) * (a.x - b.x) + (a.z - b.z) * (a.z - b.z)

/-- The guard `Math.sqrt(dx^2 + dz^2) < 15` of the intersection search
(CityRoadNetwork.js 377-383), embedded as the equivalent comparison of
squares `dist2 < 15 * 15` (both sides of the source comparison are
nonnegative, so squaring is exact). -/
def nearWithin15 (p : Vec2) (inter : Inter) : Bool :=
  decide (dist2 inter.position p < 15 * 15)

/-- `findConnectingWaypoint(currentWp, direction)` (CityRoadNetwork.js
375-422).  `pick` stands for the uniform random draw
`Math.floor(Math.random() * connectedLanes.length)`, supplied as an
arbitrary natural number taken modulo the candidate count.  Out-of-range
JS indexing that would yield `undefined` ids is rendered by the
default "" (no waypoint carries the empty id in a generated network). -/
def findConnectingWaypoint (net : Network) (pick : ℕ) (currentWp : Waypoint)
    (direction : ℤ) : Option Waypoint :=
  let nearby := net.intersections.find? (nearWithin15 currentWp.position)
  match nearby with
  | none =>
    match net.lanes.find? (fun l =>
        l.id == currentWp.segmentId ++ "-lane" ++ toString currentWp.lane) with
    | some lane =>
      if 0 < lane.waypoints.length then
        let loopIndex := if direction > 0 then 0 else lane.waypoints.length - 1
        net.getWaypoint (lane.waypoints.getD loopIndex "")
      else none
    | none => none
  | some nearbyIntersection =>
    let connectedLanes := net.lanes.filter (fun l =>
      if l.segmentId == currentWp.segmentId then false
      else
        match net.segments.find? (fun s => s.id == l.segmentId) with
        | none => false
        | some segment =>
          decide (dist2 nearbyIntersection.position segment.start < 15 * 15) ||
          decide (dist2 nearbyIntersection.position segment.endPos < 15 * 15))
    if connectedLanes.length = 0 then none
    else
      match connectedLanes.get? (pick % connectedLanes.length) with
      | none => none
      | some nextLane =>
        let wpId := if nextLane.direction > 0 then nextLane.waypoints.getD 0 ""
                    else nextLane.waypoints.getD (nextLane.waypoints.length - 1) ""
        net.getWaypoint wpId

/-- `getNextWaypoint(currentWpId, direction)` (CityRoadNetwork.js
356-372).  `indexOf` yields -1 for a missing id, modelled on ℤ. -/
def getNextWaypoint (net : Network) (pick : ℕ) (currentWpId : String)
    (direction : ℤ) : Option Waypoint :=
  match net.getWaypoint currentWpId with
  | none => none
  | some wp =>
    match net.lanes.find? (fun l =>
        l.id == wp.segmentId ++ "-lane" ++ toString wp.lane) with
    | none => none
    | some lane =>
      let currentIndex : ℤ :=
        match lane.waypoints.findIdx? (fun x => x == currentWpId) with
        | some k => (k : ℤ)
        | none => -1
      let nextIndex := currentIndex + direction
      if nextIndex < 0 ∨ (lane.waypoints.length : ℤ) ≤ nextIndex then
        findConnectingWaypoint net pick wp direction
      else
        net.getWaypoint (lane.waypoints.getD nextIndex.toNat "")

/-- Squared triangle inequality in the form needed below. -/
lemma dist2_le_detour (a p b : Vec2) :
    dist2 a b ≤ 2 * (dist2 a p + dist2 p b) := by
  unfold dist2
  nlinarith [sq_nonneg ((a.x - p.x) - (p.x - b.x)),
    sq_nonneg ((a.z - p.z) - (p.z - b.z))]

/-- Squared distance is symmetric. -/
lemma dist2_comm (a b : Vec2) : dist2 a b = dist2 b a := by
  unfold dist2
  ring

set_option maxHeartbeats 2000000 in
/-- The intersections generated by `createIntersections` all lie on the
40-unit grid, so any two distinct ones are at least 40 > 30 units apart:
the separation premise of the theorem below holds for the constructed
network. -/
lemma cityIntersections_separated :
    ∀ i ∈ cityIntersections, ∀ j ∈ cityIntersections, i ≠ j →
      900 ≤ dist2 i.position j.position := by
  intro i hi j hj hne
  fin_cases hi <;> fin_cases hj <;>
    first
      | (exact absurd rfl hne)
      | (norm_num [dist2])

/-- C8: on a network whose intersections are pairwise at least 30 units
apart (squared distance at least 900 — the generated city grid spaces
them 40 apart, see `cityIntersections_separated`), the intersection the
search locates is within 15 units
and is the only intersection within 15 units of the waypoint, hence the
nearest one; and when no intersection is within 15 units,
`findConnectingWaypoint` returns the waypoint at the opposite end of the
same lane — index 0 for positive direction, the last index otherwise —
rather than failing. -/
theorem findConnectingWaypoint_locates_and_falls_back (net : Network)
    (wp : Waypoint) (direction : ℤ) (pick : ℕ)
    (hsep : ∀ i ∈ net.intersections, ∀ j ∈ net.intersections, i ≠ j →
      900 ≤ dist2 i.position j.position) :
    (∀ inter,
      net.intersections.find? (nearWithin15 wp.position) = some inter →
      dist2 inter.position wp.position < 15 * 15 ∧
      ∀ j ∈ net.intersections,
        dist2 j.position wp.position < 15 * 15 → j = inter) ∧
    (net.intersections.find? (nearWithin15 wp.position) = none →
      ∀ lane, net.lanes.find? (fun l =>
          l.id == wp.segmentId ++ "-lane" ++ toString wp.lane) = some lane →
        0 < lane.waypoints.length →
        findConnectingWaypoint net pick wp direction =
          net.getWaypoint (lane.waypoints.getD
            (if direction > 0 then 0 else lane.waypoints.length - 1) "")) := by
  constructor
  · intro inter hfind
    have hmem := List.mem_of_find?_eq_some hfind
    have hp := List.find?_some hfind
    have hlt : dist2 inter.position wp.position < 15 * 15 := by
      simpa [nearWithin15] using hp
    refine ⟨hlt, ?_⟩
    intro j hj hjlt
    by_contra hne
    have h900 := hsep inter hmem j hj (fun h => hne h.symm)
    have htri := dist2_le_detour inter.position wp.position j.position
    have hsymm : dist2 wp.position j.position = dist2 j.position wp.position :=
      dist2_comm _ _
    linarith
  · intro hnone lane hlane hlen
    unfold findConnectingWaypoint
    rw [hnone, hlane]
    simp only [if_pos hlen]

/-- A two-waypoint lane used to witness C8. -/
def loopWpA : Waypoint := ⟨"main-h0-wp0-lane0", ⟨-120, -80⟩, 0, "main-h0", 1⟩

/-- The lane-end waypoint used to witness C8. -/
def loopWpB : Waypoint := ⟨"main-h0-wp1-lane0", ⟨-112, -80⟩, 0, "main-h0", 1⟩

/-- A miniature network with no intersections near the lane, used to
witness C8. -/
def loopNet : Network :=
  ⟨[], [],
   [("main-h0-wp0-lane0", loopWpA), ("main-h0-wp1-lane0", loopWpB)],
   [⟨"main-h0-lane0", "main-h0", 0, 1, 50,
     ["main-h0-wp0-lane0", "main-h0-wp1-lane0"]⟩]⟩

/-- Witness for C8: on the miniature network the separation premise
holds vacuously, the search finds no intersection, and the fallback from
the lane-end waypoint with direction +1 loops to the waypoint at index
0. -/
theorem findConnectingWaypoint_locates_and_falls_back_witness :
    loopNet.intersections.find? (nearWithin15 loopWpB.position) = none ∧
    findConnectingWaypoint loopNet 0 loopWpB 1 =
      loopNet.getWaypoint
        ((["main-h0-wp0-lane0", "main-h0-wp1-lane0"] : List String).getD
          (if (1 : ℤ) > 0 then 0
           else (["main-h0-wp0-lane0", "main-h0-wp1-lane0"] : List String).length - 1) "") ∧
    loopNet.getWaypoint "main-h0-wp0-lane0" = some loopWpA :=
  ⟨rfl,
   (findConnectingWaypoint_locates_and_falls_back loopNet loopWpB 1 0
      (by intro i hi; simp [loopNet] at hi)).2 rfl
     ⟨"main-h0-lane0", "main-h0", 0, 1, 50,
      ["main-h0-wp0-lane0", "main-h0-wp1-lane0"]⟩ rfl (by decide),
   rfl⟩

/-! ### NPCVehicle.js — the NPC driving agent -/

/-- The behavior states of the agent (NPCVehicle.js 34). -/
inductive BehaviorState
  | driving
  | stopping
  | waiting
  | turning
  | accelerating
deriving DecidableEq, Repr

/-- A turn signal side (NPCVehicle.js 40). -/
inductive SignalSide
  | left
  | right
deriving DecidableEq, Repr

/-- Abstract real-valued helpers of the JS runtime: sine, cosine, atan2,
the pair of angle-normalization while loops, and pi.  They are kept
abstract because pi is irrational; no claim verified in this file
depends on their values. -/
structure TrigModel where
  sin : ℚ → ℚ
  cos : ℚ → ℚ
  atan2 : ℚ → ℚ → ℚ
  normAngle : ℚ → ℚ
  pi : ℚ

/-- A degenerate concrete trig model used to close witness statements. -/
def zeroTrig : TrigModel := ⟨fun _ => 0, fun _ => 0, fun _ _ => 0, fun a => a, 0⟩

/-- Another vehicle as seen by the scan in `checkVehicleAhead`: only its
position and speed are read. -/
structure OtherCar where
  position : Vec2
  speed : ℚ
deriving DecidableEq, Repr

/-- The mutable state of one NPCVehicle (constructor, NPCVehicle.js
14-68).  `distanceToVehicleAhead = none` renders Infinity,
`vehicleAheadSpeed` carries the speed of the `vehicleAhead` reference,
`currentLaneSpeedLimit` the optional chain `currentLane?.speedLimit`,
and `mesh : Bool` whether `create()` has run (`this.mesh` non-null). -/
structure VehState where
  position : Vec2
  rotation : ℚ
  speed : ℚ
  targetSpeed : ℚ
  state : BehaviorState
  stoppingDistance : ℚ
  waitTimer : ℚ
  turnSignal : Option SignalSide
  turnSignalTimer : ℚ
  turnSignalVisible : Bool
  wheelRotation : ℚ
  distanceToVehicleAhead : Option ℚ
  vehicleAheadSpeed : Option ℚ
  currentLaneSpeedLimit : Option ℚ
  currentSegment : Option Segment
  segmentProgress : ℚ
  segmentDirection : ℤ
  laneOffset : ℚ
  hasRoadNetwork : Bool
  mesh : Bool
deriving DecidableEq, Repr

/-- `this.followDistance` (NPCVehicle.js 45). -/
def followDistance : ℚ := 8

/-- `this.safeDistance` (NPCVehicle.js 46). -/
def safeDistance : ℚ := 5

/-- `this.acceleration` (NPCVehicle.js 22). -/
def acceleration : ℚ := 15

/-- `this.brakeForce` (NPCVehicle.js 23). -/
def brakeForce : ℚ := 25

/-- `this.maxSpeed` (NPCVehicle.js 19). -/
def maxSpeed : ℚ := 50

/-- `this.turnSpeed` (NPCVehicle.js 25). -/
def turnSpeed : ℚ := 2

/-- The per-tick inputs of one vehicle update that come from outside the
vehicle: the traffic-manager query result (outer `none` when the vehicle
has no manager, inner value the `shouldStop` result), the forward unit
vector `(sin rotation, cos rotation)`, the other vehicles, the abstract
trig model, the road-network segment list (empty rendering a null
network together with `hasRoadNetwork = false`), and the random draws
of `pickNextSegment` / `findNearestSegment`. -/
structure DriveEnv where
  query : Option (Option StopCandidate)
  forward : Vec2
  others : List OtherCar
  trig : TrigModel
  segments : List Segment
  pickSeg : ℕ
  randDir : Bool
  randLane : ℚ

/-- `checkTrafficLights` (NPCVehicle.js 346-363): on a stop requirement
within 15 units force `stopping` and record the braking distance; when
no stop is required and the vehicle was `stopping` or `waiting`, move to
`accelerating`; otherwise leave the state alone. -/
def checkTrafficLights (query : Option (Option StopCandidate)) (v : VehState) :
    VehState :=
  match query with
  | none => v
  | some result =>
    match result with
    | some r =>
      if r.distance < 15 then
        { v with state := BehaviorState.stopping,
                 stoppingDistance := r.distance - 5 }
      else v
    | none =>
      if v.state = BehaviorState.stopping ∨ v.state = BehaviorState.waiting then
        { v with state := BehaviorState.accelerating }
      else v

/-- `checkVehicleAhead(allVehicles)` (NPCVehicle.js 368-409).  The list
holds the other vehicles (the source skips `other === this`). -/
def checkVehicleAhead (forward : Vec2) (others : List OtherCar)
    (v : VehState) : VehState :=
  let cleared := { v with distanceToVehicleAhead := none,
                          vehicleAheadSpeed := none }
  let scanned := others.foldl (fun acc other =>
    let dx := other.position.x - v.position.x
    let dz := other.position.z - v.position.z
    let distance := jsSqrt (dx * dx + dz * dz)
    if distance > followDistance * 2 then acc
    else if dx * forward.x + dz * forward.z < 0 then acc
    else if |dx * forward.z - dz * forward.x| > 3 then acc
    else if (match acc.distanceToVehicleAhead with
             | none => true
             | some d => decide (distance < d)) then
      { acc with distanceToVehicleAhead := some distance,
                 vehicleAheadSpeed := some other.speed }
    else acc) cleared
  match scanned.vehicleAheadSpeed, scanned.distanceToVehicleAhead with
  | some aheadSpeed, some d =>
    if d < followDistance then
      if d < safeDistance then { scanned with state := BehaviorState.stopping }
      else { scanned with targetSpeed := min scanned.targetSpeed aheadSpeed }
    else scanned
  | _, _ => scanned

/-- The JS expression `this.currentLane?.speedLimit || 30`: 30 when the
lane is missing or its stored limit is 0 (falsy). -/
def laneSpeedOr30 (v : VehState) : ℚ :=
  match v.currentLaneSpeedLimit with
  | none => 30
  | some s => if s = 0 then 30 else s

/-- `updateState(delta)` (NPCVehicle.js 414-444). -/
def updateState (delta : ℚ) (v : VehState) : VehState :=
  match v.state with
  | BehaviorState.driving => { v with targetSpeed := laneSpeedOr30 v }
  | BehaviorState.stopping =>
    if v.speed < 1/2 then
      { v with targetSpeed := 0, state := BehaviorState.waiting, waitTimer := 0 }
    else { v with targetSpeed := 0 }
  | BehaviorState.waiting =>
    { v with targetSpeed := 0, waitTimer := v.waitTimer + delta }
  | BehaviorState.accelerating =>
    let ts := laneSpeedOr30 v
    if v.speed > ts * (4/5) then
      { v with targetSpeed := ts, state := BehaviorState.driving }
    else { v with targetSpeed := ts }
  | BehaviorState.turning => { v with targetSpeed := 15 }

/-- The straight branch of `getTargetPointOnSegment` (NPCVehicle.js
523-552); the curved branch belongs to the highway arcs, which the
claims verified here never exercise. -/
def getTargetPointOnSegment (v : VehState) : Option Vec2 :=
  match v.currentSegment with
  | none => none
  | some seg =>
    let t := min (v.segmentProgress + 1/5) 1
    let dx := seg.endPos.x - seg.start.x
    let dz := seg.endPos.z - seg.start.z
    let len := jsSqrt (dx * dx + dz * dz)
    let perpX := -dz / len * v.laneOffset
    let perpZ := dx / len * v.laneOffset
    some ⟨seg.start.x + t * dx + perpX, seg.start.z + t * dz + perpZ⟩

/-- The straight-segment distance of `findNearestSegment`
(NPCVehicle.js 568-578), as a squared distance; the source divides by
`len * len`, which equals the squared length exactly, and only compares
the resulting distances with each other and with 20, so comparing
squares is equivalent. -/
def straightDist2ToSeg (p : Vec2) (seg : Segment) : ℚ :=
  let dx := seg.endPos.x - seg.start.x
  let dz := seg.endPos.z - seg.start.z
  let len2 := dx * dx + dz * dz
  let t := max 0 (min 1 (((p.x - seg.start.x) * dx + (p.z - seg.start.z) * dz) / len2))
  let cx := seg.start.x + t * dx
  let cz := seg.start.z + t * dz
  (p.x - cx) * (p.x - cx) + (p.z - cz) * (p.z - cz)

/-- `findNearestSegment` (NPCVehicle.js 557-594) over straight
segments: nearest segment by (squared) distance, bound to when within
20 units, with random direction and lateral offset and
`targetSpeed = speedLimit || 30`. -/
def findNearestSegment (env : DriveEnv) (v : VehState) : VehState :=
  let best := env.segments.foldl (fun acc seg =>
    let d2 := straightDist2ToSeg v.position seg
    match acc with
    | none => some (seg, d2)
    | some (_, bd) => if d2 < bd then some (seg, d2) else acc) none
  match best with
  | some (seg, d2) =>
    if d2 < 20 * 20 then
      { v with currentSegment := some seg, segmentProgress := 0,
               segmentDirection := if env.randDir then 1 else -1,
               laneOffset := (env.randLane - 1/2) * seg.width * (2/5),
               targetSpeed := if seg.speedLimit = 0 then 30 else seg.speedLimit }
    else v
  | none => v

/-- `pickNextSegment` (NPCVehicle.js 599-638): candidate segments whose
start or end lies within 15 units (squared comparison, as above), a
random pick among them, else reverse the traversal direction. -/
def pickNextSegment (env : DriveEnv) (v : VehState) : VehState :=
  let candidates := env.segments.filter (fun seg =>
    if v.currentSegment = some seg then false
    else
      decide (dist2 v.position seg.start < 15 * 15) ||
      decide (dist2 v.position seg.endPos < 15 * 15))
  if 0 < candidates.length then
    match candidates.get? (env.pickSeg % candidates.length) with
    | none => v
    | some seg =>
      { v with currentSegment := some seg, segmentProgress := 0,
               laneOffset := (env.randLane - 1/2) * seg.width * (2/5),
               targetSpeed := if seg.speedLimit = 0 then 30 else seg.speedLimit }
  else
    { v with segmentProgress := 0, segmentDirection := -v.segmentDirection }

/-- `updateMovement(delta)` (NPCVehicle.js 449-518): speed control
toward the target speed clamped to [0, maxSpeed]; segment following with
turn signals when bound to a segment, else binding to the nearest
segment when a road network exists; the city-bound steer-back; and the
position integration along the heading. -/
def updateMovement (env : DriveEnv) (delta : ℚ) (v : VehState) : VehState :=
  let speed1 :=
    if v.speed < v.targetSpeed then v.speed + acceleration * delta
    else if v.speed > v.targetSpeed then v.speed - brakeForce * delta
    else v.speed
  let v1 := { v with speed := max 0 (min speed1 maxSpeed) }
  let v2 :=
    match v1.currentSegment with
    | some _ =>
      match getTargetPointOnSegment v1 with
      | some target =>
        let dx := target.x - v1.position.x
        let dz := target.z - v1.position.z
        let distToTarget := jsSqrt (dx * dx + dz * dz)
        let angleDiff := env.trig.normAngle (env.trig.atan2 dx dz - v1.rotation)
        let v3 := { v1 with
          turnSignal :=
            if |angleDiff| > 3/10 then
              some (if angleDiff > 0 then SignalSide.left else SignalSide.right)
            else none,
          rotation := v1.rotation + angleDiff * delta * turnSpeed }
        if distToTarget < 3 then
          let v4 := { v3 with segmentProgress := v3.segmentProgress + 1/20 }
          if 1 ≤ v4.segmentProgress then pickNextSegment env v4 else v4
        else v3
      | none => v1
    | none => if v1.hasRoadNetwork then findNearestSegment env v1 else v1
  let v5 :=
    if 135 < |v2.position.x| ∨ 135 < |v2.position.z| then
      let toCenter := env.trig.atan2 (-v2.position.x) (-v2.position.z)
      let angleDiff := env.trig.normAngle (toCenter - v2.rotation)
      { v2 with rotation := v2.rotation + angleDiff * delta * 3 }
    else v2
  { v5 with position :=
      ⟨v5.position.x + env.trig.sin v5.rotation * v5.speed * delta,
       v5.position.z + env.trig.cos v5.rotation * v5.speed * delta⟩ }

/-- The state change of `updateVisuals(delta)` (NPCVehicle.js 643-657):
only the wheel rotation; the rest drives materials. -/
def updateVisuals (delta : ℚ) (v : VehState) : VehState :=
  { v with wheelRotation := v.wheelRotation + v.speed * delta * (1/2) }

/-- `updateTurnSignals(delta)` (NPCVehicle.js 662-680). -/
def updateTurnSignals (delta : ℚ) (v : VehState) : VehState :=
  let t := v.turnSignalTimer + delta
  if t > 2/5 then
    { v with turnSignalTimer := 0, turnSignalVisible := !v.turnSignalVisible }
  else
    { v with turnSignalTimer := t }

/-- `update(delta, allVehicles)` (NPCVehicle.js 321-341): nothing at all
happens before `create()` set the mesh; otherwise traffic-light check,
vehicle-ahead check, state machine, movement, visuals, turn signals, in
that order. -/
def vehUpdate (env : DriveEnv) (delta : ℚ) (v : VehState) : VehState :=
  if v.mesh = false then v
  else
    updateTurnSignals delta (updateVisuals delta (updateMovement env delta
      (updateState delta (checkVehicleAhead env.forward env.others
        (checkTrafficLights env.query v)))))

/-- C10: before the vehicle is spawned (`mesh` still null) `update` is a
no-op: every field of the state — position, rotation, speed, target
speed, behavior state, and all timers — is left unchanged for any delta
and any environment. -/
theorem update_unspawned_noop (env : DriveEnv) (delta : ℚ) (v : VehState)
    (h : v.mesh = false) : vehUpdate env delta v = v := by
  unfold vehUpdate
  rw [h]
  simp

/-- An unspawned vehicle used to witness C10. -/
def unspawnedCar : VehState :=
  ⟨⟨3, 4⟩, 1, 7, 30, BehaviorState.driving, 0, 2, none, 0, false, 0,
   none, none, some 50, none, 0, 1, 0, true, false⟩

/-- A concrete environment used to close witness statements. -/
def plainEnv : DriveEnv := ⟨some none, ⟨0, 1⟩, [], zeroTrig, [], 0, true, 0⟩

/-- Witness for C10: the no-op discharged on a concrete unspawned
vehicle. -/
theorem update_unspawned_noop_witness :
    unspawnedCar.mesh = false ∧ vehUpdate plainEnv 1 unspawnedCar = unspawnedCar :=
  ⟨rfl, update_unspawned_noop plainEnv 1 unspawnedCar rfl⟩

/-- `updateVisuals` only touches the wheel rotation. -/
lemma updateVisuals_state (delta : ℚ) (w : VehState) :
    (updateVisuals delta w).state = w.state := rfl

/-- `updateVisuals` leaves the wait timer alone. -/
lemma updateVisuals_waitTimer (delta : ℚ) (w : VehState) :
    (updateVisuals delta w).waitTimer = w.waitTimer := rfl

/-- `updateVisuals` leaves the target speed alone. -/
lemma updateVisuals_targetSpeed (delta : ℚ) (w : VehState) :
    (updateVisuals delta w).targetSpeed = w.targetSpeed := rfl

/-- `updateTurnSignals` leaves the behavior state alone. -/
lemma updateTurnSignals_state (delta : ℚ) (w : VehState) :
    (updateTurnSignals delta w).state = w.state := by
  dsimp only [updateTurnSignals]
  split <;> rfl

/-- `updateTurnSignals` leaves the wait timer alone. -/
lemma updateTurnSignals_waitTimer (delta : ℚ) (w : VehState) :
    (updateTurnSignals delta w).waitTimer = w.waitTimer := by
  dsimp only [updateTurnSignals]
  split <;> rfl

/-- `updateTurnSignals` leaves the target speed alone. -/
lemma updateTurnSignals_targetSpeed (delta : ℚ) (w : VehState) :
    (updateTurnSignals delta w).targetSpeed = w.targetSpeed := by
  dsimp only [updateTurnSignals]
  split <;> rfl

/-- For a vehicle not bound to a segment and without a road network,
`updateMovement` changes only speed, rotation and position: behavior
state, wait timer and target speed are untouched. -/
lemma updateMovement_fields (env : DriveEnv) (delta : ℚ) (w : VehState)
    (hseg : w.currentSegment = none) (hnet : w.hasRoadNetwork = false) :
    (updateMovement env delta w).state = w.state ∧
    (updateMovement env delta w).waitTimer = w.waitTimer ∧
    (updateMovement env delta w).targetSpeed = w.targetSpeed := by
  dsimp only [updateMovement]
  rw [hseg, hnet]
  simp only [Bool.false_eq_true, if_false]
  split <;> exact ⟨rfl, rfl, rfl⟩

/-- A vehicle waiting at a light, speed 0, with 5 s already on the wait
timer, not bound to a segment. -/
def waitingCar : VehState :=
  ⟨⟨0, 8⟩, 0, 0, 0, BehaviorState.waiting, 5, 5, none, 0, false, 0,
   none, none, some 50, none, 0, 1, 0, false, true⟩

/-- The waiting car still faces a red light 10 units ahead. -/
def redNearEnv : DriveEnv :=
  ⟨some (some ⟨10, "intersection-1-1", Aspect.red, ⟨0, 0⟩⟩),
   ⟨0, -1⟩, [], zeroTrig, [], 0, true, 0⟩

/-- C5, counterexample.  A vehicle in `waiting` with 5 s accumulated on
its wait timer, standing before a red light 10 < 15 units ahead, ends
the tick in `waiting` again but with its wait timer reset to 0 instead
of accumulated to 5 + delta: the per-tick signal check unconditionally
forces `stopping` whenever a stop is required within 15 units, and the
`stopping` case of the state machine re-enters `waiting` with
`waitTimer = 0` because the speed is below 0.5.  The agent thus leaves
`waiting` (through `stopping`) without the signal check reporting
"no stop required", and the timer does not accumulate. -/
theorem waiting_timer_reset_refutes_claim :
    waitingCar.state = BehaviorState.waiting ∧
    waitingCar.waitTimer = 5 ∧
    (vehUpdate redNearEnv (1/10) waitingCar).state = BehaviorState.waiting ∧
    (vehUpdate redNearEnv (1/10) waitingCar).waitTimer = 0 ∧
    ¬((vehUpdate redNearEnv (1/10) waitingCar).waitTimer
        = waitingCar.waitTimer + 1/10) := by
  refine ⟨rfl, rfl, ?_, ?_, ?_⟩ <;>
    norm_num [vehUpdate, checkTrafficLights, checkVehicleAhead, updateState,
      updateMovement, updateVisuals, updateTurnSignals, waitingCar,
      redNearEnv, zeroTrig, laneSpeedOr30]

/-- C5, amended.  For a vehicle in `waiting` with a traffic manager, no
other vehicle in sensing range and no segment binding: (a) while the
signal check keeps requiring a stop at distance at least 15, the state
stays `waiting`, the target speed is held at 0, and the wait timer
accumulates by delta; (b) when the check reports no stop required, the
state moves to `accelerating` (and stays there through the tick while
the speed is at most 80 percent of the restored lane target); (c) when
the check requires a stop within 15 units and the speed is below 0.5,
the tick passes through `stopping` and ends back in `waiting` with the
wait timer reset to 0. -/
theorem waiting_state_transitions (env : DriveEnv) (delta : ℚ) (v : VehState)
    (hmesh : v.mesh = true) (hstate : v.state = BehaviorState.waiting)
    (hothers : env.others = []) (hseg : v.currentSegment = none)
    (hnet : v.hasRoadNetwork = false) :
    (∀ r, env.query = some (some r) → ¬(r.distance < 15) →
      (vehUpdate env delta v).state = BehaviorState.waiting ∧
      (vehUpdate env delta v).targetSpeed = 0 ∧
      (vehUpdate env delta v).waitTimer = v.waitTimer + delta) ∧
    (env.query = some none → v.speed ≤ laneSpeedOr30 v * (4/5) →
      (vehUpdate env delta v).state = BehaviorState.accelerating) ∧
    (∀ r, env.query = some (some r) → r.distance < 15 → v.speed < 1/2 →
      (vehUpdate env delta v).state = BehaviorState.waiting ∧
      (vehUpdate env delta v).waitTimer = 0) := by
  have hveh : ∀ q, vehUpdate { env with query := q } delta v
      = updateTurnSignals delta (updateVisuals delta (updateMovement
          { env with query := q } delta (updateState delta
          (checkVehicleAhead env.forward [] (checkTrafficLights q v))))) := by
    intro q
    simp only [vehUpdate, hmesh, hothers, Bool.true_eq_false, if_false]
  have henv : ∀ q, env.query = q → env = { env with query := q } := by
    intro q hqq
    cases env
    simp_all
  refine ⟨?_, ?_, ?_⟩
  · intro r hq hd
    rw [henv _ hq, hveh]
    have h1 : checkTrafficLights (some (some r)) v = v := by
      simp only [checkTrafficLights, if_neg hd]
    rw [h1]
    have h2 : checkVehicleAhead env.forward [] v
        = { v with distanceToVehicleAhead := none, vehicleAheadSpeed := none } := by
      simp only [checkVehicleAhead, List.foldl_nil]
    rw [h2]
    have h3 : updateState delta
        { v with distanceToVehicleAhead := none, vehicleAheadSpeed := none }
        = { v with distanceToVehicleAhead := none, vehicleAheadSpeed := none,
                   targetSpeed := 0, waitTimer := v.waitTimer + delta } := by
      simp only [updateState, hstate]
    rw [h3]
    obtain ⟨ms, mw, mt⟩ := updateMovement_fields { env with query := some (some r) }
      delta
      { v with distanceToVehicleAhead := none, vehicleAheadSpeed := none,
               targetSpeed := 0, waitTimer := v.waitTimer + delta } hseg hnet
    refine ⟨?_, ?_, ?_⟩
    · rw [updateTurnSignals_state, updateVisuals_state, ms]
      exact hstate
    · rw [updateTurnSignals_targetSpeed, updateVisuals_targetSpeed, mt]
    · rw [updateTurnSignals_waitTimer, updateVisuals_waitTimer, mw]
  · intro hq hsp
    rw [henv _ hq, hveh]
    have h1 : checkTrafficLights (some none) v
        = { v with state := BehaviorState.accelerating } := by
      simp only [checkTrafficLights, hstate, eq_self_iff_true, or_true,
        if_true]
    rw [h1]
    have h2 : checkVehicleAhead env.forward []
        { v with state := BehaviorState.accelerating }
        = { v with state := BehaviorState.accelerating,
                   distanceToVehicleAhead := none, vehicleAheadSpeed := none } := by
      simp only [checkVehicleAhead, List.foldl_nil]
    rw [h2]
    have h3 : updateState delta
        { v with state := BehaviorState.accelerating,
                 distanceToVehicleAhead := none, vehicleAheadSpeed := none }
        = { v with state := BehaviorState.accelerating,
                   distanceToVehicleAhead := none, vehicleAheadSpeed := none,
                   targetSpeed := laneSpeedOr30 v } := by
      simp only [updateState]
      rw [if_neg]
      · rfl
      · exact not_lt.mpr hsp
    rw [h3]
    obtain ⟨ms, mw, mt⟩ := updateMovement_fields { env with query := some none }
      delta
      { v with state := BehaviorState.accelerating,
               distanceToVehicleAhead := none, vehicleAheadSpeed := none,
               targetSpeed := laneSpeedOr30 v } hseg hnet
    rw [updateTurnSignals_state, updateVisuals_state, ms]
  · intro r hq hd hsp
    rw [henv _ hq, hveh]
    have h1 : checkTrafficLights (some (some r)) v
        = { v with state := BehaviorState.stopping,
                   stoppingDistance := r.distance - 5 } := by
      simp only [checkTrafficLights, if_pos hd]
    rw [h1]
    have h2 : checkVehicleAhead env.forward []
        { v with state := BehaviorState.stopping,
                 stoppingDistance := r.distance - 5 }
        = { v with state := BehaviorState.stopping,
                   stoppingDistance := r.distance - 5,
                   distanceToVehicleAhead := none, vehicleAheadSpeed := none } := by
      simp only [checkVehicleAhead, List.foldl_nil]
    rw [h2]
    have h3 : updateState delta
        { v with state := BehaviorState.stopping,
                 stoppingDistance := r.distance - 5,
                 distanceToVehicleAhead := none, vehicleAheadSpeed := none }
        = { v with state := BehaviorState.waiting,
                   stoppingDistance := r.distance - 5,
                   distanceToVehicleAhead := none, vehicleAheadSpeed := none,
                   targetSpeed := 0, waitTimer := 0 } := by
      simp only [updateState]
      rw [if_pos hsp]
    rw [h3]
    obtain ⟨ms, mw, mt⟩ := updateMovement_fields { env with query := some (some r) }
      delta
      { v with state := BehaviorState.waiting,
               stoppingDistance := r.distance - 5,
               distanceToVehicleAhead := none, vehicleAheadSpeed := none,
               targetSpeed := 0, waitTimer := 0 } hseg hnet
    exact ⟨by rw [updateTurnSignals_state, updateVisuals_state, ms],
           by rw [updateTurnSignals_waitTimer, updateVisuals_waitTimer, mw]⟩

/-- An environment whose red light sits 20 units ahead, beyond the
15-unit forcing radius. -/
def redFarEnv : DriveEnv :=
  ⟨some (some ⟨20, "intersection-1-1", Aspect.red, ⟨0, 0⟩⟩),
   ⟨0, -1⟩, [], zeroTrig, [], 0, true, 0⟩

/-- Witness for the amended C5: the waiting car before a red light 20
units away stays waiting with its timer accumulated by the delta. -/
theorem waiting_state_transitions_witness :
    (vehUpdate redFarEnv (1/10) waitingCar).state = BehaviorState.waiting ∧
    (vehUpdate redFarEnv (1/10) waitingCar).targetSpeed = 0 ∧
    (vehUpdate redFarEnv (1/10) waitingCar).waitTimer = waitingCar.waitTimer + 1/10 :=
  (waiting_state_transitions redFarEnv (1/10) waitingCar rfl rfl rfl rfl rfl).1
    ⟨20, "intersection-1-1", Aspect.red, ⟨0, 0⟩⟩ rfl (by norm_num)

/-! ### NPCVehicle.js lines 717-1301 — the decorative NPCManager fleet
and its crude collision response -/

/-- The movement axis of a straight-road car, the JS strings `x` and `z`
in `data.axis`. -/
inductive Axis
  | x
  | z
deriving DecidableEq, Repr

/-- The `userData` movement record of a managed car (NPCVehicle.js
751-757 and 771-790): either circular-road data (angle, radius) or
straight-road data (axis, min, max). -/
inductive CarData
  | circular (angle : ℚ) (radius : ℚ)
  | straight (axis : Axis) (lo : ℚ) (hi : ℚ)
deriving DecidableEq, Repr

/-- A managed car: its scene position, y-rotation, and `userData` speed,
direction and path data. -/
structure Car where
  position : Vec2
  rotY : ℚ
  speed : ℚ
  direction : ℚ
  data : CarData
deriving DecidableEq, Repr

/-- Whether `data.axis` is set (truthy), the guard of the rotation flips
on NPCVehicle.js 1260-1265. -/
def Car.hasAxis (c : Car) : Bool :=
  match c.data with
  | CarData.straight _ _ _ => true
  | _ => false

/-- `checkCarCollision(car1, car2)` (NPCVehicle.js 1208-1213):
`carCollisionRadius = 2.5` (line 724). -/
def checkCarCollision (car1 car2 : Car) : Bool :=
  decide (jsSqrt
    ((car1.position.x - car2.position.x) * (car1.position.x - car2.position.x) +
     (car1.position.z - car2.position.z) * (car1.position.z - car2.position.z))
    < 5/2)

/-- The per-car movement step of the manager update (NPCVehicle.js
1224-1245): circular cars advance their angle; straight cars advance
along their axis by `speed * direction * delta * 20` and reverse at the
min/max bounds. -/
def moveCar (trig : TrigModel) (delta : ℚ) (car : Car) : Car :=
  match car.data with
  | CarData.circular angle radius =>
    let angle2 := angle + car.speed * delta * car.direction
    { car with data := CarData.circular angle2 radius,
               position := ⟨trig.cos angle2 * radius, trig.sin angle2 * radius⟩,
               rotY := angle2 + trig.pi / 2 * car.direction }
  | CarData.straight Axis.x lo hi =>
    let x2 := car.position.x + car.speed * car.direction * delta * 20
    if x2 > hi ∨ x2 < lo then
      { car with position := ⟨x2, car.position.z⟩,
                 direction := -car.direction, rotY := car.rotY + trig.pi }
    else
      { car with position := ⟨x2, car.position.z⟩ }
  | CarData.straight Axis.z lo hi =>
    let z2 := car.position.z + car.speed * car.direction * delta * 20
    if z2 > hi ∨ z2 < lo then
      { car with position := ⟨car.position.x, z2⟩,
                 direction := -car.direction, rotY := car.rotY + trig.pi }
    else
      { car with position := ⟨car.position.x, z2⟩ }

/-- The inner collision loop over the cars with larger index
(NPCVehicle.js 1247-1267): on a hit, both directions flip, the current
car position is rolled back to the values captured before its move
(`prevX`, `prevZ`), and straight-road cars get their rotation flipped;
the other car keeps its position.  The current car threads through the
loop, the later cars are updated in place. -/
def collideInner (trig : TrigModel) (prevX prevZ : ℚ) :
    Car → List Car → Car × List Car
  | car, [] => (car, [])
  | car, otherCar :: rest =>
    if checkCarCollision car otherCar then
      let car2 := { car with direction := -car.direction,
                             position := ⟨prevX, prevZ⟩,
                             rotY := if car.hasAxis then car.rotY + trig.pi
                                     else car.rotY }
      let other2 := { otherCar with
                        direction := -otherCar.direction,
                        rotY := if otherCar.hasAxis then otherCar.rotY + trig.pi
                                else otherCar.rotY }
      let res := collideInner trig prevX prevZ car2 rest
      (res.1, other2 :: res.2)
    else
      let res := collideInner trig prevX prevZ car rest
      (res.1, otherCar :: res.2)

/-- The collision loop does not change how many later cars there are. -/
lemma collideInner_length (trig : TrigModel) (prevX prevZ : ℚ) (c : Car)
    (l : List Car) : ((collideInner trig prevX prevZ c l).2).length = l.length := by
  induction l generalizing c with
  | nil => rfl
  | cons o rest ih =>
    simp only [collideInner]
    split
    · simp [ih]
    · simp [ih]

/-- One tick of `NPCManager.update(delta)` over the car list
(NPCVehicle.js 1215-1268): each car in order captures its previous
position, moves, then runs the collision loop against the cars after it
— which have not moved yet this tick and whose mutated state is seen by
their own later iteration, exactly as the JS `forEach` does. -/
def tickCars (trig : TrigModel) (delta : ℚ) : List Car → List Car
  | [] => []
  | car :: rest =>
    let prevX := car.position.x
    let prevZ := car.position.z
    let moved := moveCar trig delta car
    let res := collideInner trig prevX prevZ moved rest
    res.1 :: tickCars trig delta res.2
termination_by l => l.length
decreasing_by
  simp only [collideInner_length, List.length_cons]
  omega

/-- `Math.sqrt (49/25) = 7/5`, exactly. -/
lemma jsSqrt_49_25 : jsSqrt (49/25) = 7/5 := by
  have h : (49/25 : ℚ) = (7/5) * (7/5) := by norm_num
  rw [jsSqrt, h, Rat.sqrt_eq]
  norm_num

/-- The first of two cars 2 units apart on the horizontal road. -/
def carA : Car := ⟨⟨0, 0⟩, 0, 3/10, 1, CarData.straight Axis.x (-40) 40⟩

/-- The second of two cars 2 units apart on the horizontal road. -/
def carB : Car := ⟨⟨2, 0⟩, 0, 3/10, 1, CarData.straight Axis.x (-40) 40⟩

/-- C6, counterexample.  Two cars 2 units apart trigger the collision
response on one tick: the first car moves to x = 0.6, collides with the
second at distance 1.4 < 2.5, and is rolled back to its pre-tick x = 0
with its direction reversed; the second car also has its direction
reversed, but its position is NOT rolled back — it then moves with the
reversed direction during its own iteration of the same tick, ending at
x = 1.4 instead of its pre-tick x = 2.  The claim that both positions
revert to their pre-tick values is false. -/
theorem collision_rollback_refutes_claim :
    (tickCars zeroTrig (1/10) [carA, carB]).map
        (fun c => (c.position.x, c.direction))
      = [(0, -1), (7/5, -1)] ∧
    carB.position.x = 2 ∧ ((7 : ℚ)/5 ≠ 2) := by
  refine ⟨?_, rfl, by norm_num⟩
  norm_num [tickCars, collideInner, moveCar, checkCarCollision, carA, carB,
    zeroTrig, Car.hasAxis, jsSqrt_49_25]

/-- C6, amended.  When two straight-road cars on the x axis collide on a
tick (the first moves into the 2.5-unit radius of the second, neither
movement crossing its road bounds): both directions are reversed, the
first car position is rolled back to its pre-tick value, but the second
car position is not restored; the second car instead advances from its
pre-tick position with the reversed direction later in the same tick. -/
theorem collision_rollback_behavior (trig : TrigModel) (delta : ℚ)
    (a b : Car) (loA hiA loB hiB : ℚ)
    (hA : a.data = CarData.straight Axis.x loA hiA)
    (hB : b.data = CarData.straight Axis.x loB hiB)
    (hAmove : ¬(a.position.x + a.speed * a.direction * delta * 20 > hiA ∨
                a.position.x + a.speed * a.direction * delta * 20 < loA))
    (hcol : checkCarCollision (moveCar trig delta a) b = true)
    (hBmove : ¬(b.position.x + b.speed * (-b.direction) * delta * 20 > hiB ∨
                b.position.x + b.speed * (-b.direction) * delta * 20 < loB)) :
    ∃ a2 b2, tickCars trig delta [a, b] = [a2, b2] ∧
      a2.position = a.position ∧
      a2.direction = -a.direction ∧
      b2.direction = -b.direction ∧
      b2.position = ⟨b.position.x + b.speed * (-b.direction) * delta * 20,
                     b.position.z⟩ := by
  have hcol2 : checkCarCollision
      { position := ⟨a.position.x + a.speed * a.direction * delta * 20,
                     a.position.z⟩,
        rotY := a.rotY, speed := a.speed, direction := a.direction,
        data := CarData.straight Axis.x loA hiA } b = true := by
    have h := hcol
    simp only [moveCar, hA] at h
    rwa [if_neg hAmove] at h
  refine ⟨{ a with direction := -a.direction, rotY := a.rotY + trig.pi },
          { b with direction := -b.direction, rotY := b.rotY + trig.pi,
                   position := ⟨b.position.x + b.speed * -b.direction * delta * 20,
                                b.position.z⟩ },
          ?_, rfl, rfl, rfl, rfl⟩
  simp only [tickCars, collideInner, moveCar, hA, hB, Car.hasAxis]
  rw [if_neg hAmove]
  simp only [hcol2, eq_self_iff_true, if_true, tickCars, collideInner,
    moveCar, hB]
  rw [if_neg hBmove]

/-- Witness for the amended C6: the concrete two-car scenario discharges
every premise and exhibits the asymmetric rollback. -/
theorem collision_rollback_behavior_witness :
    checkCarCollision (moveCar zeroTrig (1/10) carA) carB = true ∧
    (∃ a2 b2, tickCars zeroTrig (1/10) [carA, carB] = [a2, b2] ∧
      a2.position = carA.position ∧
      a2.direction = -carA.direction ∧
      b2.direction = -carB.direction ∧
      b2.position = ⟨carB.position.x + carB.speed * (-carB.direction) * (1/10) * 20,
                     carB.position.z⟩) := by
  have hcol : checkCarCollision (moveCar zeroTrig (1/10) carA) carB = true := by
    norm_num [checkCarCollision, moveCar, carA, carB, zeroTrig, jsSqrt_49_25]
  exact ⟨hcol,
    collision_rollback_behavior zeroTrig (1/10) carA carB (-40) 40 (-40) 40
      rfl rfl (by norm_num [carA]) hcol (by norm_num [carB])⟩

/-- C2, behavior at the claimed inputs.  A light sits at the origin.
First conjunct: the light is in phase `EW_GREEN` (NS aspect red); a
vehicle exactly at the north stop point `(0, 8)`, heading straight at
the light, with lookahead 10 > 8, gets `shouldStop = true`, distance
exactly 8 (hence within any epsilon of the true separation), and a stop
position equal to its own position, 8 units before the center — the
claim holds for the north approach.  Second conjunct, the failing input:
the light is in phase `NS_GREEN` (EW aspect red); a vehicle exactly at
the claimed west stop point `(-8, 0)`, heading straight at the light,
gets `shouldStop = true` and distance 8, but the returned stop position
is `(8, 0)` — 8 units beyond the intersection center, on the far side of
the vehicle, contradicting the claim and the source comment
`Calculate stop position before intersection`. -/
theorem shouldStop_stop_point_evaluation :
    (shouldStop [⟨"intersection-1-1", ⟨0, 0⟩, ⟨3, 0, 0⟩⟩] ⟨0, 8⟩ ⟨0, -1⟩ 10
      = some ⟨8, "intersection-1-1", Aspect.red, ⟨0, 8⟩⟩) ∧
    (shouldStop [⟨"intersection-1-1", ⟨0, 0⟩, TLState.init⟩] ⟨-8, 0⟩ ⟨1, 0⟩ 10
      = some ⟨8, "intersection-1-1", Aspect.red, ⟨8, 0⟩⟩) ∧
    ((8 : ℚ), (0 : ℚ)) ≠ ((-8 : ℚ), (0 : ℚ)) := by
  refine ⟨?_, ?_, by norm_num⟩
  · show shouldStopStep ⟨0, 8⟩ ⟨0, -1⟩ 10 none ⟨"intersection-1-1", ⟨0, 0⟩, ⟨3, 0, 0⟩⟩
      = some ⟨8, "intersection-1-1", Aspect.red, ⟨0, 8⟩⟩
    unfold shouldStopStep getApproachDirection getStopPosition TLState.getState
    norm_num [jsSqrt_64, phaseAt, phases]
  · show shouldStopStep ⟨-8, 0⟩ ⟨1, 0⟩ 10 none ⟨"intersection-1-1", ⟨0, 0⟩, TLState.init⟩
      = some ⟨8, "intersection-1-1", Aspect.red, ⟨8, 0⟩⟩
    unfold shouldStopStep getApproachDirection getStopPosition TLState.getState
    norm_num [jsSqrt_64, TLState.init, phaseAt, phases]
